import Mathlib

/-!
Verification of the portfolio-optimization engine
(`src/mastra/agents/portfolio-agent/services/portfolio-optimizer.ts`).

The TypeScript service is shallowly embedded over `ℚ`.  JavaScript numbers
are modelled as exact rationals; rational division is total with `x / 0 = 0`
(places where the JavaScript code would instead produce `NaN`/`Infinity` are
noted at the definition concerned).  The transcendental `Math` functions the
code calls (`Math.sqrt`, `Math.exp`, `Math.log`, `Math.cos`, `Math.PI`) have
no exact rational counterpart, so every embedded definition takes them as an
explicit `FloatOps` bundle; a theorem that depends on a property of one of
them (for instance monotonicity of `sqrt`) states that property as a
hypothesis.  The ambient random source `Math.random()` is modelled as an
explicit stream of draws handed to the simulation.

Maps keyed by symbol (`{ [symbol: string]: number }`) are modelled as
association lists `List (String × ℚ)` in insertion order, matching the
enumeration order of `Object.entries`/`Object.keys`; plain lookup tables that
are only ever read are modelled as total functions `String → ℚ`.
-/

set_option maxRecDepth 4000

/-- The `Math` float operations used by the service, abstracted: `sqrt`,
`exp`, `log`, `cos` and the constant `PI`.  The embedding is parametric in
them because their exact real versions are not rational-valued. -/
structure FloatOps where
  sqrt : ℚ → ℚ
  exp : ℚ → ℚ
  log : ℚ → ℚ
  cos : ℚ → ℚ
  pi : ℚ

/-- A fully concrete instantiation of `FloatOps` used by closed witnesses and
counterexamples (each field is the identity, `pi` is `0`).  Counterexamples
built with it only rely on values at which the chosen field provably agrees
with the behaviour needed, as noted where it is used. -/
def opsId : FloatOps := ⟨id, id, id, id, 0⟩

/-- `private readonly MONTE_CARLO_SCENARIOS = 1000`. -/
def MONTE_CARLO_SCENARIOS : ℕ := 1000

/-- `private readonly RISK_FREE_RATE = 0.045`. -/
def RISK_FREE_RATE : ℚ := 45 / 1000

/-- `private readonly TRADING_DAYS = 252`. -/
def TRADING_DAYS : ℕ := 252

/-- `private readonly HISTORICAL_DAYS = 252`. -/
def HISTORICAL_DAYS : ℕ := 252

/-- The empty string, used as the out-of-range default for symbol lists. -/
def noSym : String := ""

/-- `interface HistoricalData` (the `dates: Date[]` field is omitted: no
verified component reads it). -/
structure HistoricalData where
  symbol : String
  prices : List ℚ
  returns : List ℚ
deriving DecidableEq

/-- JavaScript `Math.round`: round half towards positive infinity. -/
def jsRound (x : ℚ) : ℤ := ⌊x + 1 / 2⌋

/-- `Math.round(x * 100) / 100` — two-decimal presentation rounding. -/
def round2 (x : ℚ) : ℚ := (jsRound (x * 100) : ℚ) / 100

/-- `Math.round(x * 10000) / 100` — fraction to a two-decimal percentage. -/
def round2pct (x : ℚ) : ℚ := (jsRound (x * 10000) : ℚ) / 100

/-- Entry `i j` of a `number[][]` matrix, `0` outside the stored bounds. -/
def covAt (m : List (List ℚ)) (i j : ℕ) : ℚ := (m.getD i []).getD j 0

/-- `calculateCovariance`: truncate both series to the shared minimum
length, then sample covariance with the `N−1` denominator.  For a truncated
length of `0` or `1` the JavaScript code divides by `0`  and yields
`NaN`; in the rational model those divisions return `0`. -/
def calculateCovariance (returns1 returns2 : List ℚ) : ℚ :=
  let minLength := min returns1.length returns2.length
  let r1 := returns1.take minLength
  let r2 := returns2.take minLength
  let mean1 := r1.sum / (r1.length : ℚ)
  let mean2 := r2.sum / (r2.length : ℚ)
  let covariance := ((r1.zip r2).map (fun p => (p.1 - mean1) * (p.2 - mean2))).sum
  covariance / ((r1.length : ℚ) - 1)

/-- `calculateCovarianceMatrix`: pairwise sample covariances, annualized by
`TRADING_DAYS` (the source fills the matrix and then multiplies every entry
by `TRADING_DAYS`; the single fused product below is the same value). -/
def calculateCovarianceMatrix (data : List HistoricalData) : List (List ℚ) :=
  data.map (fun di =>
    data.map (fun dj =>
      calculateCovariance di.returns dj.returns * (TRADING_DAYS : ℚ)))

lemma sum_zip_sub_mul_comm (m1 m2 : ℚ) :
    ∀ (a b : List ℚ),
      ((a.zip b).map (fun p => (p.1 - m1) * (p.2 - m2))).sum
        = ((b.zip a).map (fun p => (p.1 - m2) * (p.2 - m1))).sum := by
  intro a
  induction a with
  | nil => intro b; simp
  | cons x xs ih =>
    intro b
    cases b with
    | nil => simp
    | cons y ys => simp [List.zip_cons_cons, ih ys, mul_comm]

lemma calculateCovariance_comm (a b : List ℚ) :
    calculateCovariance a b = calculateCovariance b a := by
  simp only [calculateCovariance, List.length_take]
  rw [min_comm b.length a.length]
  have h1 : min (min a.length b.length) a.length = min a.length b.length := by omega
  have h2 : min (min a.length b.length) b.length = min a.length b.length := by omega
  rw [h1, h2, sum_zip_sub_mul_comm]

/-- The sum of the values of a weights map. -/
def weightSum (w : List (String × ℚ)) : ℚ := (w.map Prod.snd).sum

/-- `calculatePortfolioReturn`: iterate `Object.entries(weights)` and
accumulate `weight * expectedReturns[symbol]`. -/
def calculatePortfolioReturn (w : List (String × ℚ)) (er : String → ℚ) : ℚ :=
  (w.map (fun p => p.2 * er p.1)).sum

/-- `calculatePortfolioVariance`: `Σᵢ Σⱼ w[sᵢ] * w[sⱼ] * cov[i][j]` over the
index range of `symbols`.  A symbol missing from `w` reads as `0` (the
JavaScript code would read `undefined` and poison the sum with `NaN`; the
optimizer only ever calls this with maps keyed exactly by `symbols`). -/
def calculatePortfolioVariance (w : List (String × ℚ)) (cov : List (List ℚ))
    (symbols : List String) : ℚ :=
  ((List.range symbols.length).map (fun i =>
    ((List.range symbols.length).map (fun j =>
      ((w.lookup (symbols.getD i noSym)).getD 0)
        * ((w.lookup (symbols.getD j noSym)).getD 0) * covAt cov i j)).sum)).sum

/-- `twoAssetOptimization`: closed-form two-asset weight for a target
return, clipped to `[0,1]`.  The source also computes an unused local `B`;
it is omitted.  When `C = 0` (resp. `r1 = r2` in the second branch) the
JavaScript division yields `NaN`/`Infinity` before clipping; the rational
model yields `0`. -/
def twoAssetOptimization (er : String → ℚ) (cov : List (List ℚ))
    (symbols : List String) (targetReturn : ℚ) : List (String × ℚ) :=
  let s0 := symbols.getD 0 noSym
  let s1 := symbols.getD 1 noSym
  let r1 := er s0
  let r2 := er s1
  let var1 := covAt cov 0 0
  let var2 := covAt cov 1 1
  let cov12 := covAt cov 0 1
  let A := var2 - cov12
  let C := var1 + var2 - 2 * cov12
  let w1raw := if |r1 - r2| < 1 / 1000000 then A / C else (targetReturn - r2) / (r1 - r2)
  let w1 := max 0 (min 1 w1raw)
  [(s0, w1), (s1, 1 - w1)]

/-- The per-asset Sharpe-like scores of `multiAssetHeuristicOptimization`:
`max(0, (expectedReturn − RISK_FREE_RATE) / sqrt(variance))`, `0` for a
non-positive variance. -/
def multiAssetScores (ops : FloatOps) (er : String → ℚ) (cov : List (List ℚ))
    (symbols : List String) : List ℚ :=
  symbols.enum.map (fun pr =>
    let excessReturn := er pr.2 - RISK_FREE_RATE
    let variance := covAt cov pr.1 pr.1
    max 0 (if 0 < variance then excessReturn / ops.sqrt variance else 0))

/-- The initial weights of `multiAssetHeuristicOptimization`: scores
normalized to sum `1`, equal weights when every score is `0`. -/
def multiAssetBase (ops : FloatOps) (er : String → ℚ) (cov : List (List ℚ))
    (symbols : List String) : List (String × ℚ) :=
  let scores := multiAssetScores ops er cov symbols
  let totalScore := scores.sum
  if totalScore = 0 then
    symbols.map (fun sym => (sym, 1 / (symbols.length : ℚ)))
  else
    (symbols.zip scores).map (fun p => (p.1, p.2 / totalScore))

/-- The target-return nudge: each weight is scaled by
`1 + adjustment * (expectedReturns[symbol] / currentReturn)` with
`adjustment = (target − current) / current`. -/
def multiAssetNudged (ops : FloatOps) (er : String → ℚ) (cov : List (List ℚ))
    (symbols : List String) (targetReturn : ℚ) : List (String × ℚ) :=
  let base := multiAssetBase ops er cov symbols
  let currentReturn := calculatePortfolioReturn base er
  let adjustment := (targetReturn - currentReturn) / currentReturn
  base.map (fun p => (p.1, p.2 * (1 + adjustment * (er p.1 / currentReturn))))

/-- The divisor by which `multiAssetHeuristicOptimization` renormalizes:
the post-nudge total weight when the nudge branch is taken, `1` otherwise. -/
def multiAssetDivisor (ops : FloatOps) (er : String → ℚ) (cov : List (List ℚ))
    (symbols : List String) (targetReturn : ℚ) : ℚ :=
  let base := multiAssetBase ops er cov symbols
  let currentReturn := calculatePortfolioReturn base er
  if 1 / 100 < |currentReturn - targetReturn| then
    weightSum (multiAssetNudged ops er cov symbols targetReturn)
  else 1

/-- `multiAssetHeuristicOptimization`: Sharpe-score base weights, nudged
towards the target return when more than `0.01` away, then renormalized. -/
def multiAssetHeuristicOptimization (ops : FloatOps) (er : String → ℚ)
    (cov : List (List ℚ)) (symbols : List String) (targetReturn : ℚ) :
    List (String × ℚ) :=
  let base := multiAssetBase ops er cov symbols
  let currentReturn := calculatePortfolioReturn base er
  if 1 / 100 < |currentReturn - targetReturn| then
    let nudged := multiAssetNudged ops er cov symbols targetReturn
    let totalWeight := weightSum nudged
    nudged.map (fun p => (p.1, p.2 / totalWeight))
  else base

/-- `meanVarianceOptimization`: analytic solution for exactly two assets,
heuristic otherwise. -/
def meanVarianceOptimization (ops : FloatOps) (er : String → ℚ)
    (cov : List (List ℚ)) (symbols : List String) (targetReturn : ℚ) :
    List (String × ℚ) :=
  if symbols.length = 2 then twoAssetOptimization er cov symbols targetReturn
  else multiAssetHeuristicOptimization ops er cov symbols targetReturn

/-- A point of the efficient frontier (`return` is a Lean keyword, so the
field is named `ret`). -/
structure FrontierPoint where
  risk : ℚ
  ret : ℚ
  weights : List (String × ℚ)
deriving DecidableEq

instance : Inhabited FrontierPoint := ⟨⟨0, 0, []⟩⟩

/-- The comparator of `frontier.sort((a, b) => a.risk - b.risk)`. -/
def riskLE (p q : FrontierPoint) : Prop := p.risk ≤ q.risk

instance : DecidableRel riskLE := fun p q => inferInstanceAs (Decidable (p.risk ≤ q.risk))

instance : IsTotal FrontierPoint riskLE := ⟨fun p q => le_total p.risk q.risk⟩

instance : IsTrans FrontierPoint riskLE := ⟨fun _ _ _ h1 h2 => le_trans h1 h2⟩

/-- `const numPortfolios = 100`. -/
def numPortfolios : ℕ := 100

/-- The frontier point generated for sweep index `i`:
`target = min + (i / numPortfolios) * (max − min)`, weights from
`meanVarianceOptimization`, `risk = sqrt(wᵗΣw)`. -/
def frontierPointAt (ops : FloatOps) (er : String → ℚ) (cov : List (List ℚ))
    (symbols : List String) (minReturn maxReturn : ℚ) (i : ℕ) : FrontierPoint :=
  let targetReturn := minReturn + ((i : ℚ) / (numPortfolios : ℚ)) * (maxReturn - minReturn)
  let weights := meanVarianceOptimization ops er cov symbols targetReturn
  ⟨ops.sqrt (calculatePortfolioVariance weights cov symbols),
    calculatePortfolioReturn weights er, weights⟩

/-- `generateEfficientFrontier`: sweep `numPortfolios + 1` targets between
the minimum and maximum per-asset expected return and sort the points
ascending by risk.  (`Math.min()`/`Math.max()` of an empty spread are
`±Infinity` in JavaScript; the rational model defaults them to `0`, which no
claim exercises.) -/
def generateEfficientFrontier (ops : FloatOps) (er : String → ℚ)
    (cov : List (List ℚ)) (symbols : List String) : List FrontierPoint :=
  let rets := symbols.map er
  let minReturn := rets.min?.getD 0
  let maxReturn := rets.max?.getD 0
  List.insertionSort riskLE
    ((List.range (numPortfolios + 1)).map
      (frontierPointAt ops er cov symbols minReturn maxReturn))

/-- The four recognised risk tolerances. -/
inductive RiskTolerance where
  | conservative
  | moderate
  | aggressive
  | very_aggressive
deriving DecidableEq

/-- The `riskLevels` table of `findOptimalPortfolio`. -/
def riskLevel : RiskTolerance → ℚ
  | RiskTolerance.conservative => 12 / 100
  | RiskTolerance.moderate => 16 / 100
  | RiskTolerance.aggressive => 22 / 100
  | RiskTolerance.very_aggressive => 30 / 100

/-- The score `findOptimalPortfolio` maximizes over qualifying frontier
points: Sharpe ratio minus ten times the excess risk over the target. -/
def selectorScore (targetRisk : ℚ) (p : FrontierPoint) : ℚ :=
  (p.ret - RISK_FREE_RATE) / p.risk - max 0 (p.risk - targetRisk) * 10

/-- `bestScore` starts at `-Infinity`; `none` models that initial value. -/
def optLt (bs : Option ℚ) (sc : ℚ) : Bool :=
  match bs with
  | none => true
  | some s => decide (s < sc)

/-- The scan loop of `findOptimalPortfolio` over the frontier. -/
def findBest (targetRisk : ℚ) :
    List FrontierPoint → FrontierPoint → Option ℚ → FrontierPoint
  | [], best, _ => best
  | p :: rest, best, bs =>
    if p.risk ≤ targetRisk * (11 / 10) then
      let sc := selectorScore targetRisk p
      if optLt bs sc then findBest targetRisk rest p (some sc)
      else findBest targetRisk rest best bs
    else findBest targetRisk rest best bs

/-- `findOptimalPortfolio`: best qualifying frontier point's weights,
starting from `efficientFrontier[0]`.  (The source's unused
`expectedReturns`, `covarianceMatrix` and `symbols` parameters are omitted;
its body never reads them.) -/
def findOptimalPortfolio (efficientFrontier : List FrontierPoint)
    (riskTolerance : RiskTolerance) : List (String × ℚ) :=
  (findBest (riskLevel riskTolerance) efficientFrontier
    (efficientFrontier.headD default) none).weights

/-- `calculateCurrentWeights`: cost-basis weight of each holding, given as
`(symbol, quantity, averageCost)` triples. -/
def calculateCurrentWeights (holdings : List (String × ℚ × ℚ))
    (totalValue : ℚ) : List (String × ℚ) :=
  holdings.map (fun h => (h.1, h.2.1 * h.2.2 / totalValue))

/-- Literal `"BUY"`. -/
def buyAction : String := "BUY"

/-- Literal `"SELL"`. -/
def sellAction : String := "SELL"

/-- One entry of `rebalanceRecommendations`.  `currentWeight` and
`targetWeight` are stored as two-decimal percentages, `amount` rounded to
cents, exactly as the source builds them. -/
structure RebalanceRec where
  symbol : String
  currentWeight : ℚ
  targetWeight : ℚ
  action : String
  amount : ℚ
deriving DecidableEq

/-- The recommendation `generateRebalanceRecommendations` emits for one
symbol: `none` when `|targetWeight − currentWeight| ≤ 0.01`. -/
def rebalanceRecFor (currentWeights optimalWeights : List (String × ℚ))
    (totalValue : ℚ) (sym : String) : Option RebalanceRec :=
  let currentWeight := (currentWeights.lookup sym).getD 0
  let targetWeight := (optimalWeights.lookup sym).getD 0
  let difference := targetWeight - currentWeight
  if 1 / 100 < |difference| then
    some ⟨sym, round2pct currentWeight, round2pct targetWeight,
      if 0 < difference then buyAction else sellAction,
      round2 (|difference * totalValue|)⟩
  else none

/-- The comparator of the final
`sort((a, b) => |b.target−b.current| − |a.target−a.current|)`:
descending by the absolute difference of the stored (rounded) weights. -/
def rebalanceGE (a b : RebalanceRec) : Prop :=
  |b.targetWeight - b.currentWeight| ≤ |a.targetWeight - a.currentWeight|

instance : DecidableRel rebalanceGE := fun _ _ =>
  inferInstanceAs (Decidable (_ ≤ _))

instance : IsTotal RebalanceRec rebalanceGE := ⟨fun _ _ => le_total _ _⟩

instance : IsTrans RebalanceRec rebalanceGE := ⟨fun _ _ _ h1 h2 => le_trans h2 h1⟩

/-- `generateRebalanceRecommendations`: one candidate per symbol, kept when
the weight difference exceeds `1%`, sorted descending by the stored
difference. -/
def generateRebalanceRecommendations (currentWeights optimalWeights : List (String × ℚ))
    (totalValue : ℚ) (symbols : List String) : List RebalanceRec :=
  List.insertionSort rebalanceGE
    (symbols.filterMap (rebalanceRecFor currentWeights optimalWeights totalValue))

/-- `choleskyDecomposition`: lower-triangular `L` with
`L[i][i] = sqrt(max(0, Σ[i][i] − Σₖ L[i][k]²))` and
`L[i][j] = (Σ[i][j] − Σₖ L[i][k]L[j][k]) / L[j][j]` (or `0` when
`L[j][j] = 0`), built row by row; the upper triangle is `0`. -/
def choleskyDecomposition (matrix : List (List ℚ)) (ops : FloatOps) :
    List (List ℚ) :=
  let n := matrix.length
  (List.range n).foldl (fun L i =>
    let row := (List.range (i + 1)).foldl (fun row j =>
      if j = i then
        let s := (row.map (fun x => x * x)).sum
        row ++ [ops.sqrt (max 0 (covAt matrix i i - s))]
      else
        let rowj := L.getD j []
        let s := ((row.zip rowj).map (fun p => p.1 * p.2)).sum
        let ljj := rowj.getD j 0
        row ++ [if ljj = 0 then 0 else (covAt matrix i j - s) / ljj]) []
    L ++ [row ++ List.replicate (n - (i + 1)) 0]) []

/-- `generateCorrelatedReturnsCholesky`: for each asset `i`, the correlated
shock `Σ_{j ≤ i} L[i][j] * z[j]` from the independent draws `z`, then the
daily return `expectedReturns[sᵢ]/TRADING_DAYS + shock * sqrt(L[i][i]/TRADING_DAYS)`.
Note the daily volatility reads the Cholesky diagonal `L[i][i]`, not the
covariance diagonal. -/
def generateCorrelatedReturnsCholesky (ops : FloatOps) (symbols : List String)
    (er : String → ℚ) (choleskyMatrix : List (List ℚ)) (z : ℕ → ℚ) : List ℚ :=
  (List.range symbols.length).map (fun i =>
    let row := choleskyMatrix.getD i []
    let shock := (List.range (i + 1)).foldl (fun acc j => acc + row.getD j 0 * z j) 0
    let dailyExpectedReturn := er (symbols.getD i noSym) / (TRADING_DAYS : ℚ)
    let dailyVolatility := ops.sqrt (row.getD i 0 / (TRADING_DAYS : ℚ))
    dailyExpectedReturn + shock * dailyVolatility)

/-- Modelled from the spec (§4.5): the per-asset daily return the spec
describes, with the per-day volatility taken from the diagonal of the
annualized covariance matrix — `sqrt(Σ_ii/T)` — rather than from the
Cholesky factor.  Kept separate so it can be compared with what the source
computes. -/
def specDailyAssetReturn (ops : FloatOps) (symbols : List String)
    (er : String → ℚ) (cov : List (List ℚ)) (choleskyMatrix : List (List ℚ))
    (z : ℕ → ℚ) (i : ℕ) : ℚ :=
  er (symbols.getD i noSym) / (TRADING_DAYS : ℚ)
    + ((List.range (i + 1)).map (fun j => (choleskyMatrix.getD i []).getD j 0 * z j)).sum
      * ops.sqrt (covAt cov i i / (TRADING_DAYS : ℚ))

/-- The weighted daily portfolio return
`Σᵢ weights[symbols[i]] * correlatedReturns[i]`. -/
def dailyPortfolioReturn (w : List (String × ℚ)) (symbols : List String)
    (correlatedReturns : List ℚ) : ℚ :=
  ((List.range symbols.length).map (fun i =>
    ((w.lookup (symbols.getD i noSym)).getD 0) * correlatedReturns.getD i 0)).sum

/-- One simulated day: `portfolioValue *= 1 + dailyReturn`. -/
def simulateDay (ops : FloatOps) (w : List (String × ℚ)) (er : String → ℚ)
    (symbols : List String) (choleskyMatrix : List (List ℚ)) (z : ℕ → ℚ)
    (value : ℚ) : ℚ :=
  value * (1 + dailyPortfolioReturn w symbols
    (generateCorrelatedReturnsCholesky ops symbols er choleskyMatrix z))

/-- One Monte Carlo scenario: compound `days` simulated days starting from
`v0`, drawing `symbols.length` normals per day from `stream` starting at
offset `base`. -/
def simulateScenario (ops : FloatOps) (stream : ℕ → ℚ) (w : List (String × ℚ))
    (er : String → ℚ) (symbols : List String) (choleskyMatrix : List (List ℚ))
    (base days : ℕ) (v0 : ℚ) : ℚ :=
  (List.range days).foldl (fun v d =>
    simulateDay ops w er symbols choleskyMatrix
      (fun k => stream (base + d * symbols.length + k)) v) v0

/-- The record `runAdvancedMonteCarloSimulation` returns. -/
structure SimulationResult where
  scenarios : ℕ
  successRate : ℚ
  expectedFinalValue : ℚ
  worstCase : ℚ
  bestCase : ℚ
  percentile_5 : ℚ
  percentile_25 : ℚ
  percentile_75 : ℚ
  percentile_95 : ℚ
deriving DecidableEq

/-- `Math.floor(results.length * q)` as an index. -/
def pctIndex (len : ℕ) (q : ℚ) : ℕ := (⌊(len : ℚ) * q⌋).toNat

/-- `runAdvancedMonteCarloSimulation`.  Modelled from the spec (§4.5) in one
respect: the random source is the explicit, injectable stream of
standard-normal draws the spec requires, consumed in the source's draw order
(scenario-major, then day, then asset).  The source itself has no such
parameter — its `normalRandom()` reads the ambient, non-seedable
`Math.random()`. -/
def runAdvancedMonteCarloSimulation (ops : FloatOps) (stream : ℕ → ℚ)
    (w : List (String × ℚ)) (er : String → ℚ) (cov : List (List ℚ))
    (initialValue : ℚ) (symbols : List String) : SimulationResult :=
  let choleskyMatrix := choleskyDecomposition cov ops
  let n := symbols.length
  let results := (List.range MONTE_CARLO_SCENARIOS).map (fun scenario =>
    simulateScenario ops stream w er symbols choleskyMatrix
      (scenario * (TRADING_DAYS * n)) TRADING_DAYS initialValue)
  let sorted := List.insertionSort (fun a b : ℚ => a ≤ b) results
  let len := sorted.length
  ⟨MONTE_CARLO_SCENARIOS,
    ((sorted.filter (fun v => initialValue < v)).length : ℚ) / (len : ℚ),
    sorted.sum / (len : ℚ),
    sorted.getD (pctIndex len (5 / 100)) 0,
    sorted.getD (pctIndex len (95 / 100)) 0,
    sorted.getD (pctIndex len (5 / 100)) 0,
    sorted.getD (pctIndex len (25 / 100)) 0,
    sorted.getD (pctIndex len (75 / 100)) 0,
    sorted.getD (pctIndex len (95 / 100)) 0⟩

/-- `normalRandom` as a pure Box–Muller transform of two uniforms.  Modelled
from the spec (§9): the source's version calls the ambient `Math.random()`
for `u` and `v` instead of taking them as inputs. -/
def normalRandom (ops : FloatOps) (u v : ℚ) : ℚ :=
  ops.sqrt (-2 * ops.log u) * ops.cos (2 * ops.pi * v)

/-- `getZScore`: the rational inverse-normal-CDF approximation. -/
def getZScore (ops : FloatOps) (confidenceLevel : ℚ) : ℚ :=
  let c0 : ℚ := 2515517 / 1000000
  let c1 : ℚ := 802853 / 1000000
  let c2 : ℚ := 10328 / 1000000
  let d1 : ℚ := 1432788 / 1000000
  let d2 : ℚ := 189269 / 1000000
  let d3 : ℚ := 1308 / 1000000
  let t := ops.sqrt (-2 * ops.log confidenceLevel);
  -(t - (c0 + c1 * t + c2 * t * t) / (1 + d1 * t + d2 * t * t + d3 * t * t * t))

/-- `calculateVaR`: `expectedReturn + z * volatility`. -/
def calculateVaR (ops : FloatOps) (expectedReturn volatility confidenceLevel : ℚ) : ℚ :=
  expectedReturn + getZScore ops confidenceLevel * volatility

/-- `calculateConditionalVaR`: `expectedReturn − (φ(z)/confidence) * volatility`
with `φ` the standard-normal density. -/
def calculateConditionalVaR (ops : FloatOps)
    (expectedReturn volatility confidenceLevel : ℚ) : ℚ :=
  let zScore := getZScore ops confidenceLevel
  let phi := 1 / ops.sqrt (2 * ops.pi) * ops.exp (-(1 / 2) * zScore * zScore)
  expectedReturn - phi / confidenceLevel * volatility

/-- The drawdown fold state: cumulative value, running peak, max drawdown. -/
def drawdownStep (st : ℚ × ℚ × ℚ) (dailyReturn : ℚ) : ℚ × ℚ × ℚ :=
  let cumulativeValue := st.1 * (1 + dailyReturn)
  let maxValue := max st.2.1 cumulativeValue
  (cumulativeValue, maxValue, max st.2.2 ((maxValue - cumulativeValue) / maxValue))

/-- `calculateMaxDrawdown`: replay the first `minLength` weighted daily
returns and report the maximal proportional decline from the running peak;
returns `0` outright when the shortest series has fewer than 20 entries.
(With an empty `historicalData` list, `Math.min()` is `Infinity` and the
JavaScript replay loop never terminates; the model returns `0` there, a
case no caller reaches and no claim exercises.) -/
def calculateMaxDrawdown (w : List (String × ℚ)) (historicalData : List HistoricalData) : ℚ :=
  match (historicalData.map (fun d => d.returns.length)).min? with
  | none => 0
  | some minLength =>
    if minLength < 20 then 0
    else
      let symbols := w.map Prod.fst
      let portfolioReturns := (List.range minLength).map (fun i =>
        (symbols.map (fun sym =>
          match historicalData.find? (fun d => d.symbol = sym) with
          | none => 0
          | some d =>
            match d.returns.get? i with
            | none => 0
            | some r => ((w.lookup sym).getD 0) * r)).sum)
      (portfolioReturns.foldl drawdownStep (1, 1, 0)).2.2

/-- The record `calculateAdvancedRiskMetrics` returns (all fields already
presentation-rounded, as in the source). -/
structure RiskMetrics where
  expectedReturn : ℚ
  volatility : ℚ
  sharpeRatio : ℚ
  maxDrawdown : ℚ
  valueAtRisk : ℚ
  conditionalVaR : ℚ
deriving DecidableEq

/-- `calculateAdvancedRiskMetrics`: portfolio return, volatility
`sqrt(wᵗΣw)`, guarded Sharpe ratio, historical max drawdown, VaR and CVaR at
the 5% level; every returned field is rounded to two decimals (the return,
volatility, drawdown, VaR and CVaR as percentages). -/
def calculateAdvancedRiskMetrics (ops : FloatOps) (w : List (String × ℚ))
    (er : String → ℚ) (cov : List (List ℚ))
    (historicalData : List HistoricalData) : RiskMetrics :=
  let symbols := w.map Prod.fst
  let expectedReturn := calculatePortfolioReturn w er
  let variance := calculatePortfolioVariance w cov symbols
  let volatility := ops.sqrt variance
  let sharpeRatio := if 0 < volatility then (expectedReturn - RISK_FREE_RATE) / volatility else 0
  let maxDrawdown := calculateMaxDrawdown w historicalData
  let valueAtRisk := calculateVaR ops expectedReturn volatility (5 / 100)
  let conditionalVaR := calculateConditionalVaR ops expectedReturn volatility (5 / 100)
  ⟨round2pct expectedReturn, round2pct volatility, round2 sharpeRatio,
    round2pct maxDrawdown, round2pct |valueAtRisk|, round2pct |conditionalVaR|⟩

/-- `generateRealisticPriceHistory`: starting from `[currentPrice]`, the
loop at step `i` reads `prices[i - 1]` of the current array — which, after
`i - 1` prepends, is always the original `currentPrice` — divides it by
`exp(drift + shock)` and prepends the result; finally `slice(1)` drops the
first (oldest) element.  `shocks i` stands for the `normalRandom()` draw of
iteration `i`. -/
def generateRealisticPriceHistory (ops : FloatOps) (shocks : ℕ → ℚ)
    (currentPrice annualVolatility annualReturn : ℚ) (days : ℕ) : List ℚ :=
  let dt : ℚ := 1 / (TRADING_DAYS : ℚ)
  let drift := annualReturn * dt
  let diffusion := annualVolatility * ops.sqrt dt
  let prices := (List.range' 1 (days - 1)).foldl (fun prices i =>
    let randomShock := shocks i * diffusion
    let previousPrice := prices.getD (i - 1) 0 / ops.exp (drift + randomShock)
    previousPrice :: prices) [currentPrice]
  prices.drop 1

lemma sum_map_div (l : List ℚ) (c : ℚ) :
    (l.map (fun x => x / c)).sum = l.sum / c := by
  induction l with
  | nil => simp
  | cons x xs ih => simp [ih, add_div]

lemma weightSum_map_mk (l : List (String × ℚ)) (g : String × ℚ → ℚ) :
    weightSum (l.map (fun p => (p.1, g p))) = (l.map g).sum := by
  unfold weightSum
  rw [List.map_map]
  rfl

lemma getD_map_range {α : Type} [Inhabited α] (f : ℕ → α) (n i : ℕ) (d : α)
    (hi : i < n) : ((List.range n).map f).getD i d = f i := by
  rw [List.getD_eq_getElem?_getD, List.getElem?_map, List.getElem?_range hi]
  rfl

lemma foldl_add_eq_sum (f : ℕ → ℚ) :
    ∀ (l : List ℕ) (a : ℚ), l.foldl (fun acc j => acc + f j) a = a + (l.map f).sum := by
  intro l
  induction l with
  | nil => intro a; simp
  | cons x xs ih => intro a; simp [ih, add_assoc]

lemma zip_self_map (f : ℚ → ℚ → ℚ) :
    ∀ r : List ℚ, (r.zip r).map (fun p => f p.1 p.2) = r.map (fun x => f x x) := by
  intro r
  induction r with
  | nil => rfl
  | cons x xs ih => simp [List.zip_cons_cons, ih]

lemma drop_one_getLast? (l : List ℚ) (h : 2 ≤ l.length) :
    (l.drop 1).getLast? = l.getLast? := by
  match l with
  | a :: b :: t => simp [List.getLast?_cons_cons]

lemma foldl_cons_length (g : List ℚ → ℕ → ℚ) :
    ∀ (l : List ℕ) (acc : List ℚ),
      (l.foldl (fun ps i => g ps i :: ps) acc).length = acc.length + l.length := by
  intro l
  induction l with
  | nil => intro acc; simp
  | cons x xs ih => intro acc; rw [List.foldl_cons, ih]; simp; omega

lemma foldl_cons_getLast? (g : List ℚ → ℕ → ℚ) :
    ∀ (l : List ℕ) (acc : List ℚ), acc ≠ [] →
      (l.foldl (fun ps i => g ps i :: ps) acc).getLast? = acc.getLast? := by
  intro l
  induction l with
  | nil => intro acc _; rfl
  | cons x xs ih =>
    intro acc hacc
    rw [List.foldl_cons, ih _ (List.cons_ne_nil _ _)]
    match acc, hacc with
    | b :: t, _ => exact List.getLast?_cons_cons

lemma zip_self_sub_mul (m1 m2 : ℚ) :
    ∀ r : List ℚ,
      ((r.zip r).map (fun p => (p.1 - m1) * (p.2 - m2))).sum
        = (r.map (fun x => (x - m1) * (x - m2))).sum := by
  intro r
  induction r with
  | nil => rfl
  | cons x xs ih => simp [List.zip_cons_cons, ih]

lemma calculateCovariance_self_nonneg (r : List ℚ) (h : 2 ≤ r.length) :
    0 ≤ calculateCovariance r r := by
  simp only [calculateCovariance, min_self, List.take_length]
  apply div_nonneg
  · rw [zip_self_sub_mul]
    apply List.sum_nonneg
    intro x hx
    obtain ⟨y, _, rfl⟩ := List.mem_map.mp hx
    exact mul_self_nonneg _
  · have : (2 : ℚ) ≤ (r.length : ℚ) := by exact_mod_cast h
    linarith

lemma calcCovMatrix_row (data : List HistoricalData) (i : ℕ) (hi : i < data.length) :
    (calculateCovarianceMatrix data).getD i []
      = data.map (fun dj =>
          calculateCovariance (data.get ⟨i, hi⟩).returns dj.returns * (TRADING_DAYS : ℚ)) := by
  unfold calculateCovarianceMatrix
  rw [List.getD_eq_getElem?_getD, List.getElem?_map, List.getElem?_eq_getElem hi]
  rfl

lemma calcCovMatrix_row_oob (data : List HistoricalData) (i : ℕ) (hi : data.length ≤ i) :
    (calculateCovarianceMatrix data).getD i [] = [] := by
  unfold calculateCovarianceMatrix
  rw [List.getD_eq_getElem?_getD, List.getElem?_map]
  rw [List.getElem?_eq_none (by simpa using hi)]
  rfl

lemma covAt_calcCovMatrix (data : List HistoricalData) (i j : ℕ)
    (hi : i < data.length) (hj : j < data.length) :
    covAt (calculateCovarianceMatrix data) i j
      = calculateCovariance (data.get ⟨i, hi⟩).returns (data.get ⟨j, hj⟩).returns
          * (TRADING_DAYS : ℚ) := by
  unfold covAt
  rw [calcCovMatrix_row data i hi]
  rw [List.getD_eq_getElem?_getD, List.getElem?_map, List.getElem?_eq_getElem hj]
  rfl

lemma covAt_calcCovMatrix_row_oob (data : List HistoricalData) (i j : ℕ)
    (hi : data.length ≤ i) : covAt (calculateCovarianceMatrix data) i j = 0 := by
  unfold covAt
  rw [calcCovMatrix_row_oob data i hi]
  rfl

lemma covAt_calcCovMatrix_col_oob (data : List HistoricalData) (i j : ℕ)
    (hj : data.length ≤ j) : covAt (calculateCovarianceMatrix data) i j = 0 := by
  by_cases hi : i < data.length
  · unfold covAt
    rw [calcCovMatrix_row data i hi]
    rw [List.getD_eq_getElem?_getD, List.getElem?_map]
    rw [List.getElem?_eq_none (by simpa using hj)]
    rfl
  · exact covAt_calcCovMatrix_row_oob data i j (le_of_not_lt hi)

/-- Claim C6: for return series each of length at least 2, the annualized
covariance matrix is symmetric (`M[i][j] = M[j][i]`, also trivially outside
the stored bounds where both reads default to `0`) and every diagonal entry
— the asset's annualized sample variance — is nonnegative. -/
theorem c6_covariance_matrix_symmetric_nonneg_diag (data : List HistoricalData)
    (h2 : ∀ d ∈ data, 2 ≤ d.returns.length) :
    (∀ i j, covAt (calculateCovarianceMatrix data) i j
        = covAt (calculateCovarianceMatrix data) j i)
    ∧ (∀ i, i < data.length → 0 ≤ covAt (calculateCovarianceMatrix data) i i) := by
  constructor
  · intro i j
    by_cases hi : i < data.length
    · by_cases hj : j < data.length
      · rw [covAt_calcCovMatrix data i j hi hj, covAt_calcCovMatrix data j i hj hi,
          calculateCovariance_comm]
      · rw [covAt_calcCovMatrix_col_oob data i j (le_of_not_lt hj),
          covAt_calcCovMatrix_row_oob data j i (le_of_not_lt hj)]
    · rw [covAt_calcCovMatrix_row_oob data i j (le_of_not_lt hi),
        covAt_calcCovMatrix_col_oob data j i (le_of_not_lt hi)]
  · intro i hi
    rw [covAt_calcCovMatrix data i i hi hi]
    have hmem : data.get ⟨i, hi⟩ ∈ data := data.get_mem i hi
    have := calculateCovariance_self_nonneg (data.get ⟨i, hi⟩).returns (h2 _ hmem)
    positivity

/-- Sample historical data used by closed witnesses. -/
def dataW : List HistoricalData := [⟨"A", [], [1, 2]⟩, ⟨"B", [], [2, 1]⟩]

/-- Witness for C6 at a concrete two-asset data set whose return series
both have length 2. -/
theorem c6_witness :
    (∀ i j, covAt (calculateCovarianceMatrix dataW) i j
        = covAt (calculateCovarianceMatrix dataW) j i)
    ∧ (∀ i, i < dataW.length → 0 ≤ covAt (calculateCovarianceMatrix dataW) i i) :=
  c6_covariance_matrix_symmetric_nonneg_diag dataW (by decide)

/-- Claim C10: whenever the shortest return series has fewer than 20
entries, the max-drawdown calculation returns exactly `0`, for every
weights map. -/
theorem c10_sparse_history_zero_drawdown (w : List (String × ℚ))
    (data : List HistoricalData) (m : ℕ)
    (hm : (data.map (fun d => d.returns.length)).min? = some m)
    (hlt : m < 20) :
    calculateMaxDrawdown w data = 0 := by
  unfold calculateMaxDrawdown
  rw [hm]
  simp [hlt]

/-- Witness for C10: a one-asset data set with an empty return series
(shortest length `0 < 20`) reports zero drawdown. -/
theorem c10_witness :
    calculateMaxDrawdown [] [⟨"A", [], []⟩] = 0 :=
  c10_sparse_history_zero_drawdown [] [⟨"A", [], []⟩] 0 rfl (by decide)

lemma generateRealisticPriceHistory_length (ops : FloatOps) (shocks : ℕ → ℚ)
    (currentPrice annualVolatility annualReturn : ℚ) (days : ℕ) :
    (generateRealisticPriceHistory ops shocks currentPrice annualVolatility
      annualReturn days).length = days - 1 := by
  unfold generateRealisticPriceHistory
  rw [List.length_drop, foldl_cons_length, List.length_range']
  simp

lemma generateRealisticPriceHistory_getLast (ops : FloatOps) (shocks : ℕ → ℚ)
    (currentPrice annualVolatility annualReturn : ℚ) (days : ℕ) (h : 2 ≤ days) :
    (generateRealisticPriceHistory ops shocks currentPrice annualVolatility
      annualReturn days).getLast? = some currentPrice := by
  unfold generateRealisticPriceHistory
  have hlast := foldl_cons_getLast?
    (fun prices i => prices.getD (i - 1) 0
      / ops.exp (annualReturn * (1 / (TRADING_DAYS : ℚ))
          + shocks i * (annualVolatility * ops.sqrt (1 / (TRADING_DAYS : ℚ)))))
    (List.range' 1 (days - 1)) [currentPrice] (by simp)
  have hlen := foldl_cons_length
    (fun prices i => prices.getD (i - 1) 0
      / ops.exp (annualReturn * (1 / (TRADING_DAYS : ℚ))
          + shocks i * (annualVolatility * ops.sqrt (1 / (TRADING_DAYS : ℚ)))))
    (List.range' 1 (days - 1)) [currentPrice]
  rw [drop_one_getLast?, hlast]
  · rfl
  · rw [hlen, List.length_range']
    simp
    omega

/-- Claim C4 (amended): for every positive current price and every
volatility/drift pair, the backward-generated synthetic price series has
exactly `HISTORICAL_DAYS − 1 = 251` points (the `slice(1)` drops one of the
`HISTORICAL_DAYS` generated prices) and its last element equals the current
price. -/
theorem c4_price_history_length_and_last (ops : FloatOps) (shocks : ℕ → ℚ)
    (currentPrice annualVolatility annualReturn : ℚ)
    (_hp : 0 < currentPrice) :
    (generateRealisticPriceHistory ops shocks currentPrice annualVolatility
        annualReturn HISTORICAL_DAYS).length = HISTORICAL_DAYS - 1
    ∧ (generateRealisticPriceHistory ops shocks currentPrice annualVolatility
        annualReturn HISTORICAL_DAYS).getLast? = some currentPrice :=
  ⟨generateRealisticPriceHistory_length ops shocks currentPrice annualVolatility
      annualReturn HISTORICAL_DAYS,
    generateRealisticPriceHistory_getLast ops shocks currentPrice annualVolatility
      annualReturn HISTORICAL_DAYS (by decide)⟩

/-- A stream of zero draws. -/
def zeroStream : ℕ → ℚ := fun _ => 0

/-- Counterexample for C4 as stated: at a concrete positive price,
volatility and drift, the generated series does not have
`HISTORICAL_DAYS = 252` points — it has `251`. -/
theorem c4_counterexample :
    (generateRealisticPriceHistory opsId zeroStream 100 (1 / 4) (1 / 10)
      HISTORICAL_DAYS).length ≠ HISTORICAL_DAYS := by
  rw [generateRealisticPriceHistory_length]
  decide

/-- Witness for C4's amended theorem at a concrete input. -/
theorem c4_witness :
    (0 : ℚ) < 100
    ∧ ((generateRealisticPriceHistory opsId zeroStream 100 (1 / 4) (1 / 10)
          HISTORICAL_DAYS).length = HISTORICAL_DAYS - 1
        ∧ (generateRealisticPriceHistory opsId zeroStream 100 (1 / 4) (1 / 10)
          HISTORICAL_DAYS).getLast? = some 100) :=
  ⟨by norm_num, c4_price_history_length_and_last opsId zeroStream 100 (1 / 4) (1 / 10)
    (by norm_num)⟩

/-- Claim C2: the Monte Carlo simulation, as a function of the injectable
draw stream the spec requires, is deterministic — identical streams and
identical inputs give identical `SimulationResult`s (in particular identical
percentiles).  The source itself offers no such stream: its `normalRandom`
reads the ambient, non-seedable `Math.random()`. -/
theorem c2_seeded_determinism (ops : FloatOps) (stream1 stream2 : ℕ → ℚ)
    (w : List (String × ℚ)) (er : String → ℚ) (cov : List (List ℚ))
    (initialValue : ℚ) (symbols : List String)
    (h : ∀ k, stream1 k = stream2 k) :
    runAdvancedMonteCarloSimulation ops stream1 w er cov initialValue symbols
      = runAdvancedMonteCarloSimulation ops stream2 w er cov initialValue symbols := by
  have hs : stream1 = stream2 := funext h
  rw [hs]

/-- The zero expected-return table. -/
def erZero : String → ℚ := fun _ => 0

/-- Witness for C2 at concrete (equal) streams and inputs. -/
theorem c2_witness :
    (∀ k : ℕ, zeroStream k = zeroStream k)
    ∧ runAdvancedMonteCarloSimulation opsId zeroStream [] erZero [] 0 []
        = runAdvancedMonteCarloSimulation opsId zeroStream [] erZero [] 0 [] :=
  ⟨fun _ => rfl,
    c2_seeded_determinism opsId zeroStream zeroStream [] erZero [] 0 [] (fun _ => rfl)⟩

/-- Claim C9 (amended): the returned `sharpeRatio` is the two-decimal
rounding of the guarded Sharpe formula — `(expectedReturn −
RISK_FREE_RATE)/volatility` when the volatility `sqrt(wᵗΣw)` is positive,
`0` otherwise — and in particular it is exactly `0` whenever the volatility
is `0` (no division by zero is ever performed). -/
theorem c9_sharpe_guarded (ops : FloatOps) (w : List (String × ℚ))
    (er : String → ℚ) (cov : List (List ℚ)) (data : List HistoricalData) :
    (calculateAdvancedRiskMetrics ops w er cov data).sharpeRatio
      = round2 (if 0 < ops.sqrt (calculatePortfolioVariance w cov (w.map Prod.fst))
          then (calculatePortfolioReturn w er - RISK_FREE_RATE)
            / ops.sqrt (calculatePortfolioVariance w cov (w.map Prod.fst))
          else 0)
    ∧ (ops.sqrt (calculatePortfolioVariance w cov (w.map Prod.fst)) = 0
        → (calculateAdvancedRiskMetrics ops w er cov data).sharpeRatio = 0) := by
  constructor
  · rfl
  · intro h0
    show round2 (if 0 < ops.sqrt (calculatePortfolioVariance w cov (w.map Prod.fst))
        then _ else 0) = 0
    rw [h0]
    norm_num [round2, jsRound]

/-- One-asset weights map used by the C9 counterexample. -/
def wC9 : List (String × ℚ) := [("A", 1)]

/-- Expected-return table assigning every symbol `50%`. -/
def erHalf : String → ℚ := fun _ => 1 / 2

/-- The unit 1×1 covariance matrix: portfolio variance `1`, so the real
square root (`√1 = 1`) agrees with `opsId.sqrt`. -/
def covUnit : List (List ℚ) := [[1]]

/-- Historical data for the C9 counterexample (empty return series, so the
drawdown path terminates). -/
def dataC9 : List HistoricalData := [⟨"A", [], []⟩]

/-- Counterexample for C9 as stated: with volatility exactly `1` (where the
abstract square root provably agrees with the real one), the reported
`sharpeRatio` is the rounded `0.46`, not the formula value
`(0.5 − 0.045)/1 = 0.455`. -/
theorem c9_counterexample :
    opsId.sqrt (calculatePortfolioVariance wC9 covUnit (wC9.map Prod.fst)) = 1
    ∧ (calculateAdvancedRiskMetrics opsId wC9 erHalf covUnit dataC9).sharpeRatio
        = 23 / 50
    ∧ (calculateAdvancedRiskMetrics opsId wC9 erHalf covUnit dataC9).sharpeRatio
        ≠ (calculatePortfolioReturn wC9 erHalf - RISK_FREE_RATE)
            / opsId.sqrt (calculatePortfolioVariance wC9 covUnit (wC9.map Prod.fst)) := by
  refine ⟨?_, ?_, ?_⟩ <;>
    norm_num [calculateAdvancedRiskMetrics, calculatePortfolioVariance,
      calculatePortfolioReturn, wC9, erHalf, covUnit, dataC9, covAt, noSym, opsId,
      List.lookup, List.range_succ, round2, jsRound, RISK_FREE_RATE]

/-- Witness for C9's amended theorem: at an all-zero covariance matrix the
volatility is `0` and the reported Sharpe ratio is exactly `0`. -/
theorem c9_witness :
    ((calculateAdvancedRiskMetrics opsId wC9 erHalf [] dataC9).sharpeRatio
      = round2 (if 0 < opsId.sqrt (calculatePortfolioVariance wC9 [] (wC9.map Prod.fst))
          then (calculatePortfolioReturn wC9 erHalf - RISK_FREE_RATE)
            / opsId.sqrt (calculatePortfolioVariance wC9 [] (wC9.map Prod.fst))
          else 0)
      ∧ (opsId.sqrt (calculatePortfolioVariance wC9 [] (wC9.map Prod.fst)) = 0
          → (calculateAdvancedRiskMetrics opsId wC9 erHalf [] dataC9).sharpeRatio = 0))
    ∧ (calculateAdvancedRiskMetrics opsId wC9 erHalf [] dataC9).sharpeRatio = 0 :=
  ⟨c9_sharpe_guarded opsId wC9 erHalf [] dataC9,
    (c9_sharpe_guarded opsId wC9 erHalf [] dataC9).2 (by
      norm_num [calculatePortfolioVariance, wC9, covAt, noSym, opsId, List.lookup,
        List.range_succ])⟩

lemma weightSum_map_key (l : List String) (f : String → ℚ) :
    weightSum (l.map (fun sym => (sym, f sym))) = (l.map f).sum := by
  unfold weightSum
  rw [List.map_map]
  rfl

lemma multiAssetScores_length (ops : FloatOps) (er : String → ℚ)
    (cov : List (List ℚ)) (symbols : List String) :
    (multiAssetScores ops er cov symbols).length = symbols.length := by
  unfold multiAssetScores
  simp [List.enum_length]

lemma multiAssetBase_sum (ops : FloatOps) (er : String → ℚ) (cov : List (List ℚ))
    (symbols : List String) (h : symbols ≠ []) :
    weightSum (multiAssetBase ops er cov symbols) = 1 := by
  unfold multiAssetBase
  by_cases h0 : (multiAssetScores ops er cov symbols).sum = 0
  · rw [if_pos h0, weightSum_map_key]
    have hmap : symbols.map (fun _ => 1 / (symbols.length : ℚ))
        = List.replicate symbols.length (1 / (symbols.length : ℚ)) :=
      List.map_const symbols _
    rw [hmap, List.sum_replicate, nsmul_eq_mul]
    have hne : (symbols.length : ℚ) ≠ 0 := by
      have : symbols.length ≠ 0 := fun hl => h (List.length_eq_zero.mp hl)
      exact_mod_cast this
    field_simp
  · rw [if_neg h0, weightSum_map_mk]
    have hmap : (symbols.zip (multiAssetScores ops er cov symbols)).map
          (fun p => p.2 / (multiAssetScores ops er cov symbols).sum)
        = ((symbols.zip (multiAssetScores ops er cov symbols)).map Prod.snd).map
          (fun x => x / (multiAssetScores ops er cov symbols).sum) := by
      rw [List.map_map]
      rfl
    rw [hmap, List.map_snd_zip _ _ (le_of_eq (multiAssetScores_length ops er cov symbols)),
      sum_map_div, div_self h0]

/-- Claim C1 (amended): two-asset optimization always returns weights that
sum to exactly `1` with each weight in `[0,1]`.  The `N>2` heuristic's
weights sum to `1` whenever its renormalization divisor is nonzero (always
the case when the nudge branch is skipped), but — unlike the claim — an
individual nudged weight need not lie in `[0,1]`. -/
theorem c1_weight_contract (ops : FloatOps) (er : String → ℚ)
    (cov : List (List ℚ)) (s2 sN : List String) (t : ℚ)
    (hN : sN ≠ []) (hdiv : multiAssetDivisor ops er cov sN t ≠ 0) :
    (weightSum (twoAssetOptimization er cov s2 t) = 1
      ∧ ∀ p ∈ twoAssetOptimization er cov s2 t, 0 ≤ p.2 ∧ p.2 ≤ 1)
    ∧ weightSum (multiAssetHeuristicOptimization ops er cov sN t) = 1 := by
  refine ⟨⟨?_, ?_⟩, ?_⟩
  · unfold twoAssetOptimization weightSum
    simp
  · intro p hp
    unfold twoAssetOptimization at hp
    have h0 : (0 : ℚ) ≤ max 0 (min 1 (if |er (s2.getD 0 noSym) - er (s2.getD 1 noSym)| < 1 / 1000000
        then (covAt cov 1 1 - covAt cov 0 1) / (covAt cov 0 0 + covAt cov 1 1 - 2 * covAt cov 0 1)
        else (t - er (s2.getD 1 noSym)) / (er (s2.getD 0 noSym) - er (s2.getD 1 noSym)))) :=
      le_max_left 0 _
    have h1 : max 0 (min 1 (if |er (s2.getD 0 noSym) - er (s2.getD 1 noSym)| < 1 / 1000000
        then (covAt cov 1 1 - covAt cov 0 1) / (covAt cov 0 0 + covAt cov 1 1 - 2 * covAt cov 0 1)
        else (t - er (s2.getD 1 noSym)) / (er (s2.getD 0 noSym) - er (s2.getD 1 noSym)))) ≤ 1 :=
      max_le (by norm_num) (min_le_left 1 _)
    simp only [List.mem_cons, List.mem_singleton, List.not_mem_nil, or_false] at hp
    rcases hp with rfl | rfl
    · exact ⟨h0, h1⟩
    · constructor
      · simp only
        linarith
      · simp only
        linarith
  · unfold multiAssetHeuristicOptimization
    unfold multiAssetDivisor at hdiv
    by_cases hb : 1 / 100
        < |calculatePortfolioReturn (multiAssetBase ops er cov sN) er - t|
    · rw [if_pos hb]
      rw [if_pos hb] at hdiv
      have hmap : (multiAssetNudged ops er cov sN t).map
            (fun p => (p.1, p.2 / weightSum (multiAssetNudged ops er cov sN t)))
          = (multiAssetNudged ops er cov sN t).map
            (fun p => (p.1, (fun q : String × ℚ =>
              q.2 / weightSum (multiAssetNudged ops er cov sN t)) p)) := rfl
      rw [hmap, weightSum_map_mk]
      have hmap2 : (multiAssetNudged ops er cov sN t).map
            (fun q : String × ℚ => q.2 / weightSum (multiAssetNudged ops er cov sN t))
          = ((multiAssetNudged ops er cov sN t).map Prod.snd).map
            (fun x => x / weightSum (multiAssetNudged ops er cov sN t)) := by
        rw [List.map_map]
        rfl
      rw [hmap2, sum_map_div]
      exact div_self hdiv
    · rw [if_neg hb]
      exact multiAssetBase_sum ops er cov sN hN

/-- Symbol literal used by the C1 counterexample. -/
def symC : String := "C"

/-- Expected returns for the C1 counterexample: `−10%` for assets `A`,`B`
and `4%` for `C` — all below `RISK_FREE_RATE`, so every Sharpe score is
clipped to `0` and the heuristic starts from equal weights. -/
def erC1 : String → ℚ := fun s => if s == symC then 1 / 25 else -(1 / 10)

/-- Diagonal covariance matrix (variance `1%` each) for the C1
counterexample. -/
def covC1 : List (List ℚ) := [[1 / 100, 0, 0], [0, 1 / 100, 0], [0, 0, 1 / 100]]

/-- The three symbols of the C1 counterexample. -/
def symsC1 : List String := ["A", "B", symC]

lemma c1ce_scores : multiAssetScores opsId erC1 covC1 symsC1 = [0, 0, 0] := by
  simp [multiAssetScores, erC1, covC1, symsC1, symC, covAt, noSym, RISK_FREE_RATE,
    opsId, List.enum_cons, List.enumFrom_cons, String.reduceEq]
  norm_num

lemma c1ce_base : multiAssetBase opsId erC1 covC1 symsC1
    = [("A", 1 / 3), ("B", 1 / 3), ("C", 1 / 3)] := by
  unfold multiAssetBase
  rw [c1ce_scores]
  norm_num [symsC1, symC]

lemma c1ce_current :
    calculatePortfolioReturn [("A", (1 : ℚ) / 3), ("B", 1 / 3), ("C", 1 / 3)] erC1
      = -(4 / 75) := by
  simp [calculatePortfolioReturn, erC1, symC, String.reduceEq]
  norm_num

lemma c1ce_nudged : multiAssetNudged opsId erC1 covC1 symsC1 (1 / 25)
    = [("A", -(73 / 96)), ("B", -(73 / 96)), ("C", 37 / 48)] := by
  unfold multiAssetNudged
  simp only [c1ce_base, c1ce_current]
  simp [erC1, symC, String.reduceEq]
  norm_num

lemma c1ce_weights : multiAssetHeuristicOptimization opsId erC1 covC1 symsC1 (1 / 25)
    = [("A", 73 / 72), ("B", 73 / 72), ("C", -(37 / 36))] := by
  unfold multiAssetHeuristicOptimization
  simp only [c1ce_base, c1ce_current, c1ce_nudged]
  rw [if_pos (by norm_num [abs_eq_max_neg, max_def] : (1 : ℚ) / 100 < |-(4 / 75) - 1 / 25|)]
  norm_num [weightSum]

/-- Counterexample for C1 as stated: at the sweep's top target return
(`1/25` is exactly `maxReturn` for these inputs, the target of frontier
index `i = numPortfolios`), the `N>2` heuristic's nudge-and-renormalize
step produces the weights `{A: 73/72, B: 73/72, C: −37/36}` — they sum to
`1` but `C`'s weight is negative (and `A`'s, `B`'s exceed `1`), violating
`weight ∈ [0,1]`. -/
theorem c1_counterexample :
    multiAssetHeuristicOptimization opsId erC1 covC1 symsC1 (1 / 25)
      = [("A", 73 / 72), ("B", 73 / 72), ("C", -(37 / 36))]
    ∧ ∃ p ∈ multiAssetHeuristicOptimization opsId erC1 covC1 symsC1 (1 / 25),
        p.2 < 0 := by
  refine ⟨c1ce_weights, ⟨("C", -(37 / 36)), ?_, by norm_num⟩⟩
  rw [c1ce_weights]
  simp

lemma c1w_base : multiAssetBase opsId erZero [] symsC1
    = [("A", 1 / 3), ("B", 1 / 3), ("C", 1 / 3)] := by
  unfold multiAssetBase
  have hs : multiAssetScores opsId erZero [] symsC1 = [0, 0, 0] := by
    simp [multiAssetScores, erZero, covAt, noSym, RISK_FREE_RATE, opsId, symsC1,
      symC, List.enum_cons, List.enumFrom_cons]
  rw [hs]
  norm_num [symsC1, symC]

lemma c1w_divisor : multiAssetDivisor opsId erZero [] symsC1 0 = 1 := by
  unfold multiAssetDivisor
  simp only [c1w_base]
  rw [if_neg]
  have : calculatePortfolioReturn [("A", (1 : ℚ) / 3), ("B", 1 / 3), ("C", 1 / 3)] erZero
      = 0 := by
    simp [calculatePortfolioReturn, erZero]
  rw [this]
  norm_num

/-- Witness for C1's amended theorem at concrete inputs (three zero-return
assets: the nudge branch is skipped, the divisor is `1`). -/
theorem c1_witness :
    (weightSum (twoAssetOptimization erZero [] ["X", "Y"] 0) = 1
      ∧ ∀ p ∈ twoAssetOptimization erZero [] ["X", "Y"] 0, 0 ≤ p.2 ∧ p.2 ≤ 1)
    ∧ weightSum (multiAssetHeuristicOptimization opsId erZero [] symsC1 0) = 1 :=
  c1_weight_contract opsId erZero [] ["X", "Y"] symsC1 0 (by decide)
    (by rw [c1w_divisor]; norm_num)

/-- Claim C3 (amended): each simulated daily asset return equals the
per-day expected return `er[sᵢ]/TRADING_DAYS` plus the correlated shock
`Σ_{j ≤ i} L[i][j]·z[j]` scaled by `sqrt(L[i][i]/TRADING_DAYS)` — the
per-day volatility is taken from the Cholesky diagonal `L[i][i]`, not from
the covariance diagonal `Σ[i][i]` as the claim states; and the portfolio
value compounds multiplicatively: each further simulated day multiplies the
value by `1 +` the weighted sum of the daily asset returns. -/
theorem c3_daily_return_formula (ops : FloatOps) (symbols : List String)
    (er : String → ℚ) (choleskyMatrix : List (List ℚ)) (z : ℕ → ℚ) (i : ℕ)
    (hi : i < symbols.length) (stream : ℕ → ℚ) (w : List (String × ℚ))
    (base days : ℕ) (v0 : ℚ) :
    (generateCorrelatedReturnsCholesky ops symbols er choleskyMatrix z).getD i 0
      = er (symbols.getD i noSym) / (TRADING_DAYS : ℚ)
        + ((List.range (i + 1)).map
            (fun j => (choleskyMatrix.getD i []).getD j 0 * z j)).sum
          * ops.sqrt ((choleskyMatrix.getD i []).getD i 0 / (TRADING_DAYS : ℚ))
    ∧ simulateScenario ops stream w er symbols choleskyMatrix base (days + 1) v0
      = simulateScenario ops stream w er symbols choleskyMatrix base days v0
        * (1 + dailyPortfolioReturn w symbols
            (generateCorrelatedReturnsCholesky ops symbols er choleskyMatrix
              (fun k => stream (base + days * symbols.length + k)))) := by
  constructor
  · unfold generateCorrelatedReturnsCholesky
    rw [getD_map_range _ _ _ _ hi]
    simp only [foldl_add_eq_sum, zero_add]
  · unfold simulateScenario
    rw [List.range_succ, List.foldl_append]
    rfl

/-- Witness for C3's amended theorem at a one-asset instance. -/
theorem c3_witness :
    (generateCorrelatedReturnsCholesky opsId ["A"] erZero [[1]] zeroStream).getD 0 0
      = erZero (["A"].getD 0 noSym) / (TRADING_DAYS : ℚ)
        + ((List.range (0 + 1)).map
            (fun j => (([[(1 : ℚ)]]).getD 0 []).getD j 0 * zeroStream j)).sum
          * opsId.sqrt ((([[(1 : ℚ)]]).getD 0 []).getD 0 0 / (TRADING_DAYS : ℚ))
    ∧ simulateScenario opsId zeroStream [] erZero ["A"] [[1]] 0 (0 + 1) 100
      = simulateScenario opsId zeroStream [] erZero ["A"] [[1]] 0 0 100
        * (1 + dailyPortfolioReturn [] ["A"]
            (generateCorrelatedReturnsCholesky opsId ["A"] erZero [[1]]
              (fun k => zeroStream (0 + 0 * (["A"] : List String).length + k)))) :=
  c3_daily_return_formula opsId ["A"] erZero [[1]] zeroStream 0 (by decide)
    zeroStream [] 0 0 100

/-- The 1×1 annualized covariance matrix `[[4]]` of the C3 counterexample. -/
def covC3 : List (List ℚ) := [[4]]

/-- Float operations whose `sqrt` field is `x ↦ x/2`: it agrees with the
real square root at `4` (the only point where the counterexample's Cholesky
factorization applies it), and like the real square root it is strictly
monotone, so it separates `2/252` from `4/252` exactly as the real square
root does. -/
def opsHalf : FloatOps := ⟨fun x => x / 2, id, id, id, 0⟩

/-- A stream of unit draws. -/
def oneStream : ℕ → ℚ := fun _ => 1

/-- The single-symbol list of the C3 counterexample. -/
def symsOne : List String := ["A"]

lemma c3ce_chol : choleskyDecomposition covC3 opsHalf = [[2]] := by
  unfold choleskyDecomposition
  simp [covC3, covAt, opsHalf, List.range_succ]
  norm_num [max_def]

/-- Counterexample for C3 as stated: with annualized covariance `Σ = [[4]]`
the Cholesky factor is `L = [[2]]`; the code's daily return for the single
asset is `shock · sqrt(L[0][0]/252)` (value `1/126` here) while the claim's
formula reads the covariance diagonal, `shock · sqrt(Σ[0][0]/252)` (value
`1/63` here) — the two differ.  Under the real square root the two sides
differ as well, since `√` is injective on nonnegatives and
`L[0][0]/252 = 2/252 ≠ 4/252 = Σ[0][0]/252`. -/
theorem c3_counterexample :
    choleskyDecomposition covC3 opsHalf = [[2]]
    ∧ (generateCorrelatedReturnsCholesky opsHalf symsOne erZero
        (choleskyDecomposition covC3 opsHalf) oneStream).getD 0 0 = 1 / 126
    ∧ specDailyAssetReturn opsHalf symsOne erZero covC3
        (choleskyDecomposition covC3 opsHalf) oneStream 0 = 1 / 63
    ∧ (generateCorrelatedReturnsCholesky opsHalf symsOne erZero
        (choleskyDecomposition covC3 opsHalf) oneStream).getD 0 0
      ≠ specDailyAssetReturn opsHalf symsOne erZero covC3
          (choleskyDecomposition covC3 opsHalf) oneStream 0 := by
  have h1 : (generateCorrelatedReturnsCholesky opsHalf symsOne erZero
      (choleskyDecomposition covC3 opsHalf) oneStream).getD 0 0 = 1 / 126 := by
    rw [c3ce_chol]
    unfold generateCorrelatedReturnsCholesky
    simp [symsOne, erZero, noSym, opsHalf, oneStream, TRADING_DAYS, List.range_succ]
    norm_num
  have h2 : specDailyAssetReturn opsHalf symsOne erZero covC3
      (choleskyDecomposition covC3 opsHalf) oneStream 0 = 1 / 63 := by
    rw [c3ce_chol]
    unfold specDailyAssetReturn
    simp [symsOne, erZero, noSym, opsHalf, oneStream, covC3, covAt, TRADING_DAYS,
      List.range_succ]
    norm_num
  refine ⟨c3ce_chol, h1, h2, ?_⟩
  rw [h1, h2]
  norm_num

lemma generateEfficientFrontier_eq (ops : FloatOps) (er : String → ℚ)
    (cov : List (List ℚ)) (symbols : List String) :
    generateEfficientFrontier ops er cov symbols
      = List.insertionSort riskLE ((List.range (numPortfolios + 1)).map
          (frontierPointAt ops er cov symbols (((symbols.map er).min?).getD 0)
            (((symbols.map er).max?).getD 0))) := rfl

/-- Claim C7: the efficient frontier is sorted ascending by its risk field
(`List.Sorted riskLE`, i.e. pairwise `p.risk ≤ q.risk` along the list, which
in particular holds for every pair of consecutive points), and each point's
risk field is `sqrt(wᵗΣw)` computed from that point's own weights. -/
theorem c7_frontier_sorted (ops : FloatOps) (er : String → ℚ)
    (cov : List (List ℚ)) (symbols : List String) :
    List.Sorted riskLE (generateEfficientFrontier ops er cov symbols)
    ∧ ∀ p ∈ generateEfficientFrontier ops er cov symbols,
        p.risk = ops.sqrt (calculatePortfolioVariance p.weights cov symbols) := by
  constructor
  · exact List.sorted_insertionSort riskLE _
  · intro p hp
    rw [generateEfficientFrontier_eq, List.mem_insertionSort] at hp
    obtain ⟨i, _, rfl⟩ := List.mem_map.mp hp
    rfl

/-- Witness for C7 at a concrete (degenerate) instance. -/
theorem c7_witness :
    List.Sorted riskLE (generateEfficientFrontier opsId erZero [] [])
    ∧ ∀ p ∈ generateEfficientFrontier opsId erZero [] [],
        p.risk = opsId.sqrt (calculatePortfolioVariance p.weights [] []) :=
  c7_frontier_sorted opsId erZero [] []

lemma findBest_some (t : ℚ) :
    ∀ (l : List FrontierPoint) (best : FrontierPoint),
      best.risk ≤ t * (11 / 10) →
      (findBest t l best (some (selectorScore t best))).risk ≤ t * (11 / 10)
      ∧ selectorScore t best
          ≤ selectorScore t (findBest t l best (some (selectorScore t best)))
      ∧ (∀ q ∈ l, q.risk ≤ t * (11 / 10)
          → selectorScore t q
              ≤ selectorScore t (findBest t l best (some (selectorScore t best))))
      ∧ (findBest t l best (some (selectorScore t best)) = best
          ∨ findBest t l best (some (selectorScore t best)) ∈ l) := by
  intro l
  induction l with
  | nil =>
    intro best hb
    refine ⟨hb, le_refl _, ?_, Or.inl rfl⟩
    intro q hq
    exact absurd hq (List.not_mem_nil q)
  | cons p rest ih =>
    intro best hb
    by_cases hq : p.risk ≤ t * (11 / 10)
    · by_cases hlt : selectorScore t best < selectorScore t p
      · have hfb : findBest t (p :: rest) best (some (selectorScore t best))
            = findBest t rest p (some (selectorScore t p)) := by
          simp [findBest, hq, optLt, hlt]
        obtain ⟨h1, h2, h3, h4⟩ := ih p hq
        rw [hfb]
        refine ⟨h1, le_trans (le_of_lt hlt) h2, ?_, ?_⟩
        · intro q' hq' hq'qual
          rcases List.mem_cons.mp hq' with rfl | hm
          · exact h2
          · exact h3 q' hm hq'qual
        · rcases h4 with he | hm
          · refine Or.inr ?_
            rw [he]
            exact List.mem_cons_self p rest
          · exact Or.inr (List.mem_cons_of_mem p hm)
      · have hfb : findBest t (p :: rest) best (some (selectorScore t best))
            = findBest t rest best (some (selectorScore t best)) := by
          simp [findBest, hq, optLt, hlt]
        obtain ⟨h1, h2, h3, h4⟩ := ih best hb
        rw [hfb]
        refine ⟨h1, h2, ?_, ?_⟩
        · intro q' hq' hq'qual
          rcases List.mem_cons.mp hq' with rfl | hm
          · exact le_trans (le_of_not_lt hlt) h2
          · exact h3 q' hm hq'qual
        · rcases h4 with he | hm
          · exact Or.inl he
          · exact Or.inr (List.mem_cons_of_mem p hm)
    · have hfb : findBest t (p :: rest) best (some (selectorScore t best))
          = findBest t rest best (some (selectorScore t best)) := by
        simp [findBest, hq]
      obtain ⟨h1, h2, h3, h4⟩ := ih best hb
      rw [hfb]
      refine ⟨h1, h2, ?_, ?_⟩
      · intro q' hq' hq'qual
        rcases List.mem_cons.mp hq' with rfl | hm
        · exact absurd hq'qual hq
        · exact h3 q' hm hq'qual
      · rcases h4 with he | hm
        · exact Or.inl he
        · exact Or.inr (List.mem_cons_of_mem p hm)

lemma findBest_none (t : ℚ) :
    ∀ (l : List FrontierPoint) (best : FrontierPoint),
      ((∀ q ∈ l, ¬ q.risk ≤ t * (11 / 10)) → findBest t l best none = best)
      ∧ (∀ q ∈ l, q.risk ≤ t * (11 / 10)
          → (findBest t l best none).risk ≤ t * (11 / 10)
            ∧ findBest t l best none ∈ l
            ∧ ∀ q' ∈ l, q'.risk ≤ t * (11 / 10)
                → selectorScore t q' ≤ selectorScore t (findBest t l best none)) := by
  intro l
  induction l with
  | nil =>
    intro best
    refine ⟨fun _ => rfl, ?_⟩
    intro q hq
    exact absurd hq (List.not_mem_nil q)
  | cons p rest ih =>
    intro best
    constructor
    · intro hnone
      have hp : ¬ p.risk ≤ t * (11 / 10) := hnone p (List.mem_cons_self p rest)
      have hfb : findBest t (p :: rest) best none = findBest t rest best none := by
        simp [findBest, hp]
      rw [hfb]
      exact (ih best).1 (fun q hq => hnone q (List.mem_cons_of_mem p hq))
    · intro q hq hqual
      by_cases hp : p.risk ≤ t * (11 / 10)
      · have hfb : findBest t (p :: rest) best none
            = findBest t rest p (some (selectorScore t p)) := by
          simp [findBest, hp, optLt]
        obtain ⟨h1, h2, h3, h4⟩ := findBest_some t rest p hp
        rw [hfb]
        refine ⟨h1, ?_, ?_⟩
        · rcases h4 with he | hm
          · rw [he]
            exact List.mem_cons_self p rest
          · exact List.mem_cons_of_mem p hm
        · intro q' hq' hq'qual
          rcases List.mem_cons.mp hq' with rfl | hm
          · exact h2
          · exact h3 q' hm hq'qual
      · have hfb : findBest t (p :: rest) best none = findBest t rest best none := by
          simp [findBest, hp]
        have hqmem : q ∈ rest := by
          rcases List.mem_cons.mp hq with rfl | hm
          · exact absurd hqual hp
          · exact hm
        obtain ⟨hr1, hr2, hr3⟩ := (ih best).2 q hqmem hqual
        rw [hfb]
        refine ⟨hr1, List.mem_cons_of_mem p hr2, ?_⟩
        intro q' hq' hq'qual
        rcases List.mem_cons.mp hq' with rfl | hm
        · exact absurd hq'qual hp
        · exact hr3 q' hm hq'qual

/-- Claim C5: `findOptimalPortfolio` maps the four risk tolerances to
target volatilities `0.12/0.16/0.22/0.30`; among frontier points with
`risk ≤ target × 1.1` it returns the weights of a point maximizing
`(return − RISK_FREE_RATE)/risk − max(0, risk − target) × 10`; and when no
point qualifies it returns the first — by sortedness lowest-risk — frontier
point's weights. -/
theorem c5_selector (ef : List FrontierPoint) (rt : RiskTolerance)
    (hne : ef ≠ []) (hsorted : List.Sorted riskLE ef) :
    (riskLevel RiskTolerance.conservative = 12 / 100
      ∧ riskLevel RiskTolerance.moderate = 16 / 100
      ∧ riskLevel RiskTolerance.aggressive = 22 / 100
      ∧ riskLevel RiskTolerance.very_aggressive = 30 / 100)
    ∧ ((∀ q ∈ ef, ¬ q.risk ≤ riskLevel rt * (11 / 10)) →
        findOptimalPortfolio ef rt = (ef.headD default).weights
          ∧ ∀ q ∈ ef, (ef.headD default).risk ≤ q.risk)
    ∧ (∀ q ∈ ef, q.risk ≤ riskLevel rt * (11 / 10) →
        ∃ p, p ∈ ef ∧ p.risk ≤ riskLevel rt * (11 / 10)
          ∧ findOptimalPortfolio ef rt = p.weights
          ∧ ∀ q' ∈ ef, q'.risk ≤ riskLevel rt * (11 / 10)
            → selectorScore (riskLevel rt) q' ≤ selectorScore (riskLevel rt) p) := by
  refine ⟨⟨rfl, rfl, rfl, rfl⟩, ?_, ?_⟩
  · intro hnone
    constructor
    · unfold findOptimalPortfolio
      rw [(findBest_none (riskLevel rt) ef (ef.headD default)).1 hnone]
    · intro q hq
      obtain ⟨p0, tl, rfl⟩ : ∃ p0 tl, ef = p0 :: tl := by
        cases ef with
        | nil => exact absurd rfl hne
        | cons p0 tl => exact ⟨p0, tl, rfl⟩
      simp only [List.headD_cons]
      rcases List.mem_cons.mp hq with rfl | hm
      · exact le_refl _
      · exact (List.sorted_cons.mp hsorted).1 q hm
  · intro q hq hqual
    obtain ⟨h1, h2, h3⟩ :=
      (findBest_none (riskLevel rt) ef (ef.headD default)).2 q hq hqual
    exact ⟨findBest (riskLevel rt) ef (ef.headD default) none, h2, h1, rfl, h3⟩

/-- A one-point frontier used by the C5 witness. -/
def efW : List FrontierPoint := [⟨0, 1 / 10, []⟩]

/-- Witness for C5 at a concrete one-point frontier (the point qualifies:
risk `0 ≤ 0.12 × 1.1`). -/
theorem c5_witness :
    ((riskLevel RiskTolerance.conservative = 12 / 100
      ∧ riskLevel RiskTolerance.moderate = 16 / 100
      ∧ riskLevel RiskTolerance.aggressive = 22 / 100
      ∧ riskLevel RiskTolerance.very_aggressive = 30 / 100)
    ∧ ((∀ q ∈ efW, ¬ q.risk ≤ riskLevel RiskTolerance.conservative * (11 / 10)) →
        findOptimalPortfolio efW RiskTolerance.conservative = (efW.headD default).weights
          ∧ ∀ q ∈ efW, (efW.headD default).risk ≤ q.risk)
    ∧ (∀ q ∈ efW, q.risk ≤ riskLevel RiskTolerance.conservative * (11 / 10) →
        ∃ p, p ∈ efW ∧ p.risk ≤ riskLevel RiskTolerance.conservative * (11 / 10)
          ∧ findOptimalPortfolio efW RiskTolerance.conservative = p.weights
          ∧ ∀ q' ∈ efW, q'.risk ≤ riskLevel RiskTolerance.conservative * (11 / 10)
            → selectorScore (riskLevel RiskTolerance.conservative) q'
                ≤ selectorScore (riskLevel RiskTolerance.conservative) p)) :=
  c5_selector efW RiskTolerance.conservative (by simp [efW]) (by simp [efW])

/-- Holdings of the spec's rebalance scenario: 600 AAPL at $100 and
400 MSFT at $100 on a $100,000 portfolio — current weights 60%/40%. -/
def scenarioHoldings : List (String × ℚ × ℚ) := [("AAPL", 600, 100), ("MSFT", 400, 100)]

/-- Optimal weights of the rebalance scenario: 40% AAPL, 60% MSFT. -/
def scenarioOptimal : List (String × ℚ) := [("AAPL", 2 / 5), ("MSFT", 3 / 5)]

/-- Symbols of the rebalance scenario. -/
def scenarioSymbols : List String := ["AAPL", "MSFT"]

/-- Symbol literal `AAPL`. -/
def symAAPL : String := "AAPL"

/-- Symbol literal `MSFT`. -/
def symMSFT : String := "MSFT"

lemma scenario_currentWeights : calculateCurrentWeights scenarioHoldings 100000
    = [("AAPL", 3 / 5), ("MSFT", 2 / 5)] := by
  norm_num [calculateCurrentWeights, scenarioHoldings]

/-- Claim C8 (amended): a symbol gets a recommendation iff its weight
difference `delta = optimalWeight − currentWeight` (missing entries read as
`0`) exceeds `0.01` in absolute value; the action is `BUY` for positive
delta and `SELL` otherwise; the amount is `|delta| × totalValue` rounded to
cents; the list is sorted descending by the absolute difference of the
STORED two-decimal-percent weights (not the raw `|delta|`); and the spec's
scenario — rebalancing 60/40 to 40/60 on $100,000 — yields exactly
`SELL AAPL $20,000` and `BUY MSFT $20,000`. -/
theorem c8_rebalance (cw ow : List (String × ℚ)) (tv : ℚ) (symbols : List String) :
    (∀ r ∈ generateRebalanceRecommendations cw ow tv symbols,
      ∃ sym ∈ symbols,
        1 / 100 < |(ow.lookup sym).getD 0 - (cw.lookup sym).getD 0|
        ∧ r = ⟨sym, round2pct ((cw.lookup sym).getD 0),
            round2pct ((ow.lookup sym).getD 0),
            if 0 < (ow.lookup sym).getD 0 - (cw.lookup sym).getD 0 then buyAction
              else sellAction,
            round2 |((ow.lookup sym).getD 0 - (cw.lookup sym).getD 0) * tv|⟩)
    ∧ (∀ sym ∈ symbols, 1 / 100 < |(ow.lookup sym).getD 0 - (cw.lookup sym).getD 0|
        → ∃ r ∈ generateRebalanceRecommendations cw ow tv symbols, r.symbol = sym)
    ∧ List.Sorted rebalanceGE (generateRebalanceRecommendations cw ow tv symbols)
    ∧ generateRebalanceRecommendations
        (calculateCurrentWeights scenarioHoldings 100000) scenarioOptimal 100000
        scenarioSymbols
      = [⟨symAAPL, 60, 40, sellAction, 20000⟩, ⟨symMSFT, 40, 60, buyAction, 20000⟩] := by
  refine ⟨?_, ?_, ?_, ?_⟩
  · intro r hr
    unfold generateRebalanceRecommendations at hr
    rw [List.mem_insertionSort, List.mem_filterMap] at hr
    obtain ⟨sym, hsym, heq⟩ := hr
    unfold rebalanceRecFor at heq
    by_cases hd : 1 / 100 < |(ow.lookup sym).getD 0 - (cw.lookup sym).getD 0|
    · rw [if_pos hd] at heq
      exact ⟨sym, hsym, hd, (Option.some.injEq _ _).mp heq |>.symm⟩
    · rw [if_neg hd] at heq
      exact absurd heq (Option.noConfusion)
  · intro sym hsym hd
    refine ⟨⟨sym, round2pct ((cw.lookup sym).getD 0),
        round2pct ((ow.lookup sym).getD 0),
        if 0 < (ow.lookup sym).getD 0 - (cw.lookup sym).getD 0 then buyAction
          else sellAction,
        round2 |((ow.lookup sym).getD 0 - (cw.lookup sym).getD 0) * tv|⟩, ?_, rfl⟩
    unfold generateRebalanceRecommendations
    rw [List.mem_insertionSort, List.mem_filterMap]
    refine ⟨sym, hsym, ?_⟩
    unfold rebalanceRecFor
    rw [if_pos hd]
  · exact List.sorted_insertionSort rebalanceGE _
  · rw [scenario_currentWeights]
    simp only [generateRebalanceRecommendations, rebalanceRecFor,
      scenarioOptimal, scenarioSymbols, symAAPL, symMSFT, List.lookup,
      List.filterMap_cons, List.filterMap_nil, String.reduceBEq, String.reduceEq]
    norm_num [round2pct, round2, jsRound, List.insertionSort, List.orderedInsert,
      rebalanceGE, abs_eq_max_neg, max_def, buyAction, sellAction]

/-- Witness for C8's amended theorem at empty concrete inputs. -/
theorem c8_witness :
    (∀ r ∈ generateRebalanceRecommendations [] [] 0 [],
      ∃ sym ∈ ([] : List String),
        1 / 100 < |(([] : List (String × ℚ)).lookup sym).getD 0
            - (([] : List (String × ℚ)).lookup sym).getD 0|
        ∧ r = ⟨sym, round2pct ((([] : List (String × ℚ)).lookup sym).getD 0),
            round2pct ((([] : List (String × ℚ)).lookup sym).getD 0),
            if 0 < (([] : List (String × ℚ)).lookup sym).getD 0
                - (([] : List (String × ℚ)).lookup sym).getD 0 then buyAction
              else sellAction,
            round2 |((([] : List (String × ℚ)).lookup sym).getD 0
                - (([] : List (String × ℚ)).lookup sym).getD 0) * 0|⟩)
    ∧ (∀ sym ∈ ([] : List String),
        1 / 100 < |(([] : List (String × ℚ)).lookup sym).getD 0
            - (([] : List (String × ℚ)).lookup sym).getD 0|
        → ∃ r ∈ generateRebalanceRecommendations [] [] 0 [], r.symbol = sym)
    ∧ List.Sorted rebalanceGE (generateRebalanceRecommendations [] [] 0 [])
    ∧ generateRebalanceRecommendations
        (calculateCurrentWeights scenarioHoldings 100000) scenarioOptimal 100000
        scenarioSymbols
      = [⟨symAAPL, 60, 40, sellAction, 20000⟩, ⟨symMSFT, 40, 60, buyAction, 20000⟩] :=
  c8_rebalance [] [] 0 []

/-- Symbol literal `A`. -/
def symA : String := "A"

/-- Symbol literal `X`. -/
def symX : String := "X"

/-- Symbol literal `Y`. -/
def symY : String := "Y"

/-- Holdings for the C8 ordering counterexample: one share of `X` at cost
`$5` on a `$100,000` portfolio, so `X`'s current weight is `0.00005`. -/
def c8ceHoldings : List (String × ℚ × ℚ) := [("X", 1, 5)]

/-- Optimal weights for the C8 ordering counterexample. -/
def c8ceOptimal : List (String × ℚ) := [("X", 11449 / 1000000), ("Y", 1135 / 100000)]

/-- Symbols for the C8 ordering counterexample. -/
def c8ceSymbols : List String := ["X", "Y"]

/-- Current weights for the C8 amount counterexample. -/
def c8amtCw : List (String × ℚ) := [("A", 1 / 1000)]

/-- Optimal weights for the C8 amount counterexample. -/
def c8amtOw : List (String × ℚ) := [("A", 1 / 3)]

/-- Symbols for the C8 amount counterexample. -/
def c8amtSymbols : List String := ["A"]

lemma c8ce_currentWeights : calculateCurrentWeights c8ceHoldings 100000
    = [("X", 5 / 100000)] := by
  norm_num [calculateCurrentWeights, c8ceHoldings]

lemma c8ce_recs : generateRebalanceRecommendations
      (calculateCurrentWeights c8ceHoldings 100000) c8ceOptimal 100000 c8ceSymbols
    = [⟨symY, 0, 114 / 100, buyAction, 1135⟩,
        ⟨symX, 1 / 100, 114 / 100, buyAction, 11399 / 10⟩] := by
  rw [c8ce_currentWeights]
  simp only [generateRebalanceRecommendations, rebalanceRecFor,
    c8ceOptimal, c8ceSymbols, symX, symY, List.lookup,
    List.filterMap_cons, List.filterMap_nil, String.reduceBEq, String.reduceEq]
  norm_num [round2pct, round2, jsRound, List.insertionSort, List.orderedInsert,
    rebalanceGE, abs_eq_max_neg, max_def, buyAction]

lemma c8amt_recs : generateRebalanceRecommendations c8amtCw c8amtOw 1000 c8amtSymbols
    = [⟨symA, 1 / 10, 3333 / 100, buyAction, 33233 / 100⟩] := by
  simp only [generateRebalanceRecommendations, rebalanceRecFor,
    c8amtCw, c8amtOw, c8amtSymbols, symA, List.lookup,
    List.filterMap_cons, List.filterMap_nil, String.reduceBEq, String.reduceEq]
  norm_num [round2pct, round2, jsRound, List.insertionSort, List.orderedInsert,
    rebalanceGE, abs_eq_max_neg, max_def, buyAction]

/-- Counterexample for C8 as stated, in two parts.  Ordering: symbol `X`'s
raw `|delta|` (`0.011399`) exceeds `Y`'s (`0.01135`), yet the returned list
places `Y` first, because the comparator reads the STORED two-decimal
percentages (`|1.14 − 0.01| = 1.13` for `X` versus `|1.14 − 0| = 1.14` for
`Y`) — so the output is not sorted descending by `|delta|`.  Amount: with
`delta = 1/3 − 1/1000` on a `$1,000` portfolio the emitted amount is the
cent-rounded `332.33`, not `|delta| × totalValue = 332.33…`. -/
theorem c8_counterexample :
    ((generateRebalanceRecommendations (calculateCurrentWeights c8ceHoldings 100000)
        c8ceOptimal 100000 c8ceSymbols).map (fun r => r.symbol) = [symY, symX]
      ∧ |(c8ceOptimal.lookup symY).getD 0
            - ((calculateCurrentWeights c8ceHoldings 100000).lookup symY).getD 0|
        < |(c8ceOptimal.lookup symX).getD 0
            - ((calculateCurrentWeights c8ceHoldings 100000).lookup symX).getD 0|)
    ∧ ((generateRebalanceRecommendations c8amtCw c8amtOw 1000 c8amtSymbols).map
          (fun r => r.amount) = [33233 / 100]
      ∧ (33233 : ℚ) / 100
          ≠ |(c8amtOw.lookup symA).getD 0 - (c8amtCw.lookup symA).getD 0| * 1000) := by
  refine ⟨⟨?_, ?_⟩, ?_, ?_⟩
  · rw [c8ce_recs]
    rfl
  · rw [c8ce_currentWeights]
    simp only [c8ceOptimal, symX, symY, List.lookup, String.reduceBEq]
    norm_num [abs_eq_max_neg, max_def]
  · rw [c8amt_recs]
    rfl
  · simp only [c8amtCw, c8amtOw, symA, List.lookup, String.reduceBEq]
    norm_num [abs_eq_max_neg, max_def]
